import Mathlib

/-!
Shallow embedding of the order-validation and request-construction layer of
the Binance Futures testnet trading bot (src/main.py, class BasicBot), and
proofs of the specified properties of that layer.

Modelling conventions:
* Python floats used for quantities and prices are modelled as rationals
  (the properties at stake are sign comparisons and field passing, which a
  rational model captures exactly).
* A Python dict of request parameters is modelled as an association list in
  the insertion order of the source, so that presence and absence of keys
  such as price and timeInForce is observable.
* The remote exchange is modelled by an environment: the symbol-list lookup
  either succeeds with a list of symbol names or raises (modelled as none).
* Each build function returns the list of network requests it issued (the
  exchange-information lookup of symbol validation and, on success, the
  order submission) together with either the ValueError message it raised
  or the parameter set it submitted.
-/

namespace TradingBot

/-- Python str.upper as the source applies it to symbols, sides and other
fields, modelled as per-character uppercasing (the ASCII case mapping, which
agrees with Python on the ASCII data the bot handles). -/
def upper (s : String) : String := ⟨s.data.map Char.toUpper⟩

/-- A value stored in an outgoing parameter map: the source builds Python
dicts whose values are strings or floats (floats modelled as rationals). -/
inductive Value where
  | str (s : String)
  | num (q : Rat)
deriving DecidableEq

/-- An outgoing parameter map, keys in the insertion order of the source. -/
abbrev Params := List (String × Value)

/-- One network request to the exchange as observed from the build functions:
the futures_exchange_info lookup issued by symbol validation, or the final
futures_create_order submission carrying the assembled parameter set. -/
inductive NetCall where
  | exchangeInfo
  | createOrder (params : Params)
deriving DecidableEq

/-- The remote exchange as seen by symbol validation: some syms when the
futures_exchange_info lookup succeeds and reports the symbol names syms,
none when the lookup raises any exception. -/
structure Env where
  exchangeInfo : Option (List String)

/-- Embeds BasicBot._validate_symbol (src/main.py lines 75-83): fetch the
exchange information, collect the reported symbol names, and test membership
of the uppercased symbol; any exception of the lookup is caught, logged and
turned into false. The first component records the lookup request issued. -/
def validate_symbol (env : Env) (symbol : String) : List NetCall × Bool :=
  match env.exchangeInfo with
  | none => ([NetCall.exchangeInfo], false)
  | some valid_symbols => ([NetCall.exchangeInfo], decide (upper symbol ∈ valid_symbols))

/-- Embeds BasicBot.place_market_order (src/main.py lines 117-160) up to the
order submission: uppercase symbol and side, validate symbol, side and
quantity in that order, raising the corresponding ValueError message at the
first failing check, and otherwise submit the MARKET parameter set. A result
of ok params means futures_create_order was invoked with params. -/
def place_market_order (env : Env) (symbol side : String) (quantity : Rat) :
    List NetCall × Except String Params :=
  let symbol := upper symbol
  let side := upper side
  let v := validate_symbol env symbol
  if v.2 = false then
    (v.1, Except.error ("Invalid symbol: " ++ symbol))
  else if side ∉ (["BUY", "SELL"] : List String) then
    (v.1, Except.error "Side must be \x27BUY\x27 or \x27SELL\x27")
  else if quantity ≤ 0 then
    (v.1, Except.error "Quantity must be positive")
  else
    let params : Params :=
      [("symbol", Value.str symbol), ("side", Value.str side),
       ("type", Value.str "MARKET"), ("quantity", Value.num quantity)]
    (v.1 ++ [NetCall.createOrder params], Except.ok params)

/-- Embeds BasicBot.place_limit_order (src/main.py lines 162-213) up to the
order submission: uppercase symbol and side, validate symbol, side, the
combined quantity and price positivity, and time in force in that order,
raising the corresponding ValueError message at the first failing check, and
otherwise submit the LIMIT parameter set. -/
def place_limit_order (env : Env) (symbol side : String) (quantity price : Rat)
    (time_in_force : String) : List NetCall × Except String Params :=
  let symbol := upper symbol
  let side := upper side
  let v := validate_symbol env symbol
  if v.2 = false then
    (v.1, Except.error ("Invalid symbol: " ++ symbol))
  else if side ∉ (["BUY", "SELL"] : List String) then
    (v.1, Except.error "Side must be \x27BUY\x27 or \x27SELL\x27")
  else if quantity ≤ 0 ∨ price ≤ 0 then
    (v.1, Except.error "Quantity and price must be positive")
  else if time_in_force ∉ (["GTC", "IOC", "FOK"] : List String) then
    (v.1, Except.error "time_in_force must be \x27GTC\x27, \x27IOC\x27, or \x27FOK\x27")
  else
    let params : Params :=
      [("symbol", Value.str symbol), ("side", Value.str side),
       ("type", Value.str "LIMIT"), ("quantity", Value.num quantity),
       ("price", Value.num price), ("timeInForce", Value.str time_in_force)]
    (v.1 ++ [NetCall.createOrder params], Except.ok params)

/-- Embeds BasicBot.place_stop_limit_order (src/main.py lines 215-266) up to
the order submission: uppercase symbol and side, validate symbol, side and
the single combined positivity check over quantity, stop_price and
limit_price in that order, raising the corresponding ValueError message at
the first failing check; time_in_force is never validated. On success submit
the parameter set with order type STOP, price carrying limit_price and
stopPrice carrying stop_price. -/
def place_stop_limit_order (env : Env) (symbol side : String)
    (quantity stop_price limit_price : Rat) (time_in_force : String) :
    List NetCall × Except String Params :=
  let symbol := upper symbol
  let side := upper side
  let v := validate_symbol env symbol
  if v.2 = false then
    (v.1, Except.error ("Invalid symbol: " ++ symbol))
  else if side ∉ (["BUY", "SELL"] : List String) then
    (v.1, Except.error "Side must be \x27BUY\x27 or \x27SELL\x27")
  else if quantity ≤ 0 ∨ stop_price ≤ 0 ∨ limit_price ≤ 0 then
    (v.1, Except.error "Quantity, stop_price, and limit_price must be positive")
  else
    let params : Params :=
      [("symbol", Value.str symbol), ("side", Value.str side),
       ("type", Value.str "STOP"), ("quantity", Value.num quantity),
       ("price", Value.num limit_price), ("stopPrice", Value.num stop_price),
       ("timeInForce", Value.str time_in_force)]
    (v.1 ++ [NetCall.createOrder params], Except.ok params)

/-- place_stop_limit_order applied with the source default time_in_force
value GTC (the Python signature declares time_in_force: str = GTC). -/
def place_stop_limit_order_gtc (env : Env) (symbol side : String)
    (quantity stop_price limit_price : Rat) : List NetCall × Except String Params :=
  place_stop_limit_order env symbol side quantity stop_price limit_price "GTC"

/-- One per-asset entry of the exchange-reported account assets, restricted
to the three fields the source copies (asset, walletBalance,
availableBalance). Numeric strings of the wire format are modelled as
rationals. -/
structure AssetEntry where
  asset : String
  walletBalance : Rat
  availableBalance : Rat
deriving DecidableEq

/-- The exchange-reported account snapshot consumed by get_account_balance. -/
structure Account where
  totalWalletBalance : Rat
  availableBalance : Rat
  assets : List AssetEntry
deriving DecidableEq

/-- The balance summary returned by get_account_balance. -/
structure Balance where
  totalWalletBalance : Rat
  availableBalance : Rat
  assets : List AssetEntry
deriving DecidableEq

/-- Embeds BasicBot.get_account_balance (src/main.py lines 93-115): copy the
two total fields and keep, in exchange-reported order, exactly the asset
entries whose walletBalance converts to a float strictly greater than zero;
each kept entry carries its asset, walletBalance and availableBalance
fields unchanged. -/
def get_account_balance (account : Account) : Balance :=
  { totalWalletBalance := account.totalWalletBalance,
    availableBalance := account.availableBalance,
    assets := account.assets.filter (fun a => decide (0 < a.walletBalance)) }

/-- The asset filtering as the specification words it: remove exactly the
entries whose wallet balance equals zero, keep the rest in exchange order.
Stated from the spec sentence, to be compared with get_account_balance. -/
def spec_nonzero_assets (assets : List AssetEntry) : List AssetEntry :=
  assets.filter (fun a => decide (a.walletBalance ≠ 0))

end TradingBot

deriving instance DecidableEq for Except

namespace TradingBot

/-- The symbol-validation helper always issues exactly one network request,
the exchange-information lookup, whether or not the lookup succeeds. -/
theorem validate_symbol_trace (env : Env) (s : String) :
    (validate_symbol env s).1 = [NetCall.exchangeInfo] := by
  rcases env with ⟨_ | _⟩ <;> rfl

/-- C7: when the exchange symbol-list lookup fails (modelled by the
environment with no exchange information), validate_symbol returns false
rather than raising, and consequently each order-build operation rejects
with the invalid-symbol error, exactly as for an unknown symbol. -/
theorem c7_validate_symbol_fails_closed (symbol side : String)
    (quantity price stop_price limit_price : Rat) (time_in_force : String) :
    (validate_symbol ⟨none⟩ symbol).2 = false ∧
    (place_market_order ⟨none⟩ symbol side quantity).2 =
      Except.error ("Invalid symbol: " ++ upper symbol) ∧
    (place_limit_order ⟨none⟩ symbol side quantity price time_in_force).2 =
      Except.error ("Invalid symbol: " ++ upper symbol) ∧
    (place_stop_limit_order ⟨none⟩ symbol side quantity stop_price limit_price
        time_in_force).2 =
      Except.error ("Invalid symbol: " ++ upper symbol) := by
  refine ⟨rfl, ?_, ?_, ?_⟩ <;>
    simp [place_market_order, place_limit_order, place_stop_limit_order,
      validate_symbol]

end TradingBot

namespace TradingBot

/-- C2: when the uppercased symbol passes the exchange symbol check, the
uppercased side is BUY or SELL and the quantity is positive,
place_market_order submits exactly the parameter set
symbol, side, type MARKET, quantity with symbol and side normalized to
uppercase, and the submitted parameter set has no price and no timeInForce
key. -/
theorem c2_market_order_wire_params (env : Env) (symbol side : String)
    (quantity : Rat)
    (hs : (validate_symbol env (upper symbol)).2 = true)
    (hside : upper side ∈ (["BUY", "SELL"] : List String))
    (hq : 0 < quantity) :
    (place_market_order env symbol side quantity).2 =
      Except.ok [("symbol", Value.str (upper symbol)),
        ("side", Value.str (upper side)),
        ("type", Value.str "MARKET"), ("quantity", Value.num quantity)] ∧
    ∀ ps : Params, (place_market_order env symbol side quantity).2 = Except.ok ps →
      "price" ∉ ps.map Prod.fst ∧ "timeInForce" ∉ ps.map Prod.fst := by
  have h1 : (place_market_order env symbol side quantity).2 =
      Except.ok [("symbol", Value.str (upper symbol)),
        ("side", Value.str (upper side)),
        ("type", Value.str "MARKET"), ("quantity", Value.num quantity)] := by
    simp [place_market_order, hs, hside, hq.not_le]
  refine ⟨h1, ?_⟩
  intro ps hps
  rw [h1] at hps
  obtain rfl := (Except.ok.inj hps).symm
  constructor <;> simp

end TradingBot

namespace TradingBot

/-- C2 witness: the concrete call of the specification, with the symbol
list reporting BTCUSDT, input btcusdt, buy and quantity 1/100, submits the
normalized MARKET parameter set without price or timeInForce keys. -/
theorem c2_market_order_wire_params_witness :
    (place_market_order ⟨some ["BTCUSDT"]⟩ "btcusdt" "buy" (1/100)).2 =
      Except.ok [("symbol", Value.str "BTCUSDT"), ("side", Value.str "BUY"),
        ("type", Value.str "MARKET"), ("quantity", Value.num (1/100))] ∧
    "price" ∉ ([("symbol", Value.str "BTCUSDT"), ("side", Value.str "BUY"),
        ("type", Value.str "MARKET"),
        ("quantity", Value.num (1/100))] : Params).map Prod.fst ∧
    "timeInForce" ∉ ([("symbol", Value.str "BTCUSDT"), ("side", Value.str "BUY"),
        ("type", Value.str "MARKET"),
        ("quantity", Value.num (1/100))] : Params).map Prod.fst :=
  ⟨(c2_market_order_wire_params ⟨some ["BTCUSDT"]⟩ "btcusdt" "buy" (1/100)
      (by decide) (by decide)
      (div_pos (by decide) (by decide))).1,
   (c2_market_order_wire_params ⟨some ["BTCUSDT"]⟩ "btcusdt" "buy" (1/100)
      (by decide) (by decide)
      (div_pos (by decide) (by decide))).2 _
      (c2_market_order_wire_params ⟨some ["BTCUSDT"]⟩ "btcusdt" "buy" (1/100)
        (by decide) (by decide)
        (div_pos (by decide) (by decide))).1⟩

/-- C3: when the uppercased symbol passes the exchange symbol check, the
uppercased side is BUY or SELL and quantity, stop price and limit price are
all positive, place_stop_limit_order with the source default time in force
submits the parameter set with order type STOP (not STOP_LIMIT), the price
field carrying the limit price, the stopPrice field carrying the stop price
and timeInForce GTC. -/
theorem c3_stop_limit_wire_params (env : Env) (symbol side : String)
    (quantity stop_price limit_price : Rat)
    (hs : (validate_symbol env (upper symbol)).2 = true)
    (hside : upper side ∈ (["BUY", "SELL"] : List String))
    (hq : 0 < quantity) (hsp : 0 < stop_price) (hlp : 0 < limit_price) :
    (place_stop_limit_order_gtc env symbol side quantity stop_price
        limit_price).2 =
      Except.ok [("symbol", Value.str (upper symbol)),
        ("side", Value.str (upper side)),
        ("type", Value.str "STOP"), ("quantity", Value.num quantity),
        ("price", Value.num limit_price), ("stopPrice", Value.num stop_price),
        ("timeInForce", Value.str "GTC")] := by
  simp [place_stop_limit_order_gtc, place_stop_limit_order, hs, hside,
    hq.not_le, hsp.not_le, hlp.not_le]

/-- C3 witness: the concrete call of the specification, ETHUSDT SELL with
quantity 2, stop price 1800 and limit price 1795, submits the STOP
parameter set with price 1795, stopPrice 1800 and timeInForce GTC. -/
theorem c3_stop_limit_wire_params_witness :
    (place_stop_limit_order_gtc ⟨some ["ETHUSDT"]⟩ "ETHUSDT" "SELL" 2 1800
        1795).2 =
      Except.ok [("symbol", Value.str "ETHUSDT"), ("side", Value.str "SELL"),
        ("type", Value.str "STOP"), ("quantity", Value.num 2),
        ("price", Value.num 1795), ("stopPrice", Value.num 1800),
        ("timeInForce", Value.str "GTC")] :=
  c3_stop_limit_wire_params ⟨some ["ETHUSDT"]⟩ "ETHUSDT" "SELL" 2 1800 1795
    (by decide) (by decide) (by decide) (by decide) (by decide)

end TradingBot

namespace TradingBot

/-- C10: place_stop_limit_order never validates its time in force argument:
for every string time_in_force, with a known symbol, a BUY or SELL side and
positive quantity, stop price and limit price, the call raises no
validation error, submits the order, and passes time_in_force through
unchanged in the outgoing parameter set. -/
theorem c10_stop_limit_tif_unvalidated (env : Env) (symbol side : String)
    (quantity stop_price limit_price : Rat) (time_in_force : String)
    (hs : (validate_symbol env (upper symbol)).2 = true)
    (hside : upper side ∈ (["BUY", "SELL"] : List String))
    (hq : 0 < quantity) (hsp : 0 < stop_price) (hlp : 0 < limit_price) :
    (place_stop_limit_order env symbol side quantity stop_price limit_price
        time_in_force).2 =
      Except.ok [("symbol", Value.str (upper symbol)),
        ("side", Value.str (upper side)),
        ("type", Value.str "STOP"), ("quantity", Value.num quantity),
        ("price", Value.num limit_price), ("stopPrice", Value.num stop_price),
        ("timeInForce", Value.str time_in_force)] ∧
    (place_stop_limit_order env symbol side quantity stop_price limit_price
        time_in_force).1 =
      [NetCall.exchangeInfo,
       NetCall.createOrder [("symbol", Value.str (upper symbol)),
         ("side", Value.str (upper side)),
         ("type", Value.str "STOP"), ("quantity", Value.num quantity),
         ("price", Value.num limit_price), ("stopPrice", Value.num stop_price),
         ("timeInForce", Value.str time_in_force)]] := by
  constructor <;>
    simp [place_stop_limit_order, hs, hside, hq.not_le, hsp.not_le,
      hlp.not_le, validate_symbol_trace]

/-- C10 witness: the nonsense time in force BANANA is accepted and passed
through unchanged in the submitted STOP parameter set. -/
theorem c10_stop_limit_tif_unvalidated_witness :
    (place_stop_limit_order ⟨some ["BTCUSDT"]⟩ "BTCUSDT" "BUY" 1 100 99
        "BANANA").2 =
      Except.ok [("symbol", Value.str "BTCUSDT"), ("side", Value.str "BUY"),
        ("type", Value.str "STOP"), ("quantity", Value.num 1),
        ("price", Value.num 99), ("stopPrice", Value.num 100),
        ("timeInForce", Value.str "BANANA")] ∧
    (place_stop_limit_order ⟨some ["BTCUSDT"]⟩ "BTCUSDT" "BUY" 1 100 99
        "BANANA").1 =
      [NetCall.exchangeInfo,
       NetCall.createOrder [("symbol", Value.str "BTCUSDT"),
         ("side", Value.str "BUY"),
         ("type", Value.str "STOP"), ("quantity", Value.num 1),
         ("price", Value.num 99), ("stopPrice", Value.num 100),
         ("timeInForce", Value.str "BANANA")]] :=
  c10_stop_limit_tif_unvalidated ⟨some ["BTCUSDT"]⟩ "BTCUSDT" "BUY" 1 100 99
    "BANANA" (by decide) (by decide) (by decide) (by decide) (by decide)

end TradingBot

namespace TradingBot

/-- C4: with a known symbol and a BUY or SELL side, a quantity that is not
positive makes every order-build operation raise its invalid-quantity
ValueError, and the only network request issued is the symbol lookup, so no
order is submitted. -/
theorem c4_nonpositive_quantity_rejected (env : Env) (symbol side : String)
    (quantity price stop_price limit_price : Rat) (time_in_force : String)
    (hs : (validate_symbol env (upper symbol)).2 = true)
    (hside : upper side ∈ (["BUY", "SELL"] : List String))
    (hq : quantity ≤ 0) :
    ((place_market_order env symbol side quantity).2 =
        Except.error "Quantity must be positive" ∧
      (place_market_order env symbol side quantity).1 =
        [NetCall.exchangeInfo]) ∧
    ((place_limit_order env symbol side quantity price time_in_force).2 =
        Except.error "Quantity and price must be positive" ∧
      (place_limit_order env symbol side quantity price time_in_force).1 =
        [NetCall.exchangeInfo]) ∧
    ((place_stop_limit_order env symbol side quantity stop_price limit_price
          time_in_force).2 =
        Except.error "Quantity, stop_price, and limit_price must be positive" ∧
      (place_stop_limit_order env symbol side quantity stop_price limit_price
          time_in_force).1 =
        [NetCall.exchangeInfo]) := by
  refine ⟨⟨?_, ?_⟩, ⟨?_, ?_⟩, ⟨?_, ?_⟩⟩ <;>
    simp [place_market_order, place_limit_order, place_stop_limit_order,
      hs, hside, hq, validate_symbol_trace]

/-- C4 witness: quantity 0 with the valid symbol BTCUSDT and side BUY is
rejected by all three order-build operations with their invalid-quantity
message, and only the symbol lookup request is issued. -/
theorem c4_nonpositive_quantity_rejected_witness :
    ((place_market_order ⟨some ["BTCUSDT"]⟩ "btcusdt" "buy" 0).2 =
        Except.error "Quantity must be positive" ∧
      (place_market_order ⟨some ["BTCUSDT"]⟩ "btcusdt" "buy" 0).1 =
        [NetCall.exchangeInfo]) ∧
    ((place_limit_order ⟨some ["BTCUSDT"]⟩ "btcusdt" "buy" 0 100 "GTC").2 =
        Except.error "Quantity and price must be positive" ∧
      (place_limit_order ⟨some ["BTCUSDT"]⟩ "btcusdt" "buy" 0 100 "GTC").1 =
        [NetCall.exchangeInfo]) ∧
    ((place_stop_limit_order ⟨some ["BTCUSDT"]⟩ "btcusdt" "buy" 0 100 99
          "GTC").2 =
        Except.error "Quantity, stop_price, and limit_price must be positive" ∧
      (place_stop_limit_order ⟨some ["BTCUSDT"]⟩ "btcusdt" "buy" 0 100 99
          "GTC").1 =
        [NetCall.exchangeInfo]) :=
  c4_nonpositive_quantity_rejected ⟨some ["BTCUSDT"]⟩ "btcusdt" "buy" 0 100
    100 99 "GTC" (by decide) (by decide) (by decide)

/-- C5: place_limit_order with a time in force outside GTC, IOC, FOK raises
the invalid-time-in-force ValueError even when symbol, side, quantity and
price are all valid, and the only network request issued is the symbol
lookup, so no order is submitted. -/
theorem c5_limit_invalid_tif_rejected (env : Env) (symbol side : String)
    (quantity price : Rat) (time_in_force : String)
    (hs : (validate_symbol env (upper symbol)).2 = true)
    (hside : upper side ∈ (["BUY", "SELL"] : List String))
    (hq : 0 < quantity) (hp : 0 < price)
    (htif : time_in_force ∉ (["GTC", "IOC", "FOK"] : List String)) :
    (place_limit_order env symbol side quantity price time_in_force).2 =
      Except.error "time_in_force must be \x27GTC\x27, \x27IOC\x27, or \x27FOK\x27" ∧
    (place_limit_order env symbol side quantity price time_in_force).1 =
      [NetCall.exchangeInfo] := by
  constructor <;>
    simp [place_limit_order, hs, hside, hq.not_le, hp.not_le, htif,
      validate_symbol_trace]

/-- C5 witness: time in force DAY with the valid symbol BTCUSDT, side BUY,
quantity 1 and price 100 is rejected with the invalid-time-in-force
message, and only the symbol lookup request is issued. -/
theorem c5_limit_invalid_tif_rejected_witness :
    (place_limit_order ⟨some ["BTCUSDT"]⟩ "BTCUSDT" "BUY" 1 100 "DAY").2 =
      Except.error "time_in_force must be \x27GTC\x27, \x27IOC\x27, or \x27FOK\x27" ∧
    (place_limit_order ⟨some ["BTCUSDT"]⟩ "BTCUSDT" "BUY" 1 100 "DAY").1 =
      [NetCall.exchangeInfo] :=
  c5_limit_invalid_tif_rejected ⟨some ["BTCUSDT"]⟩ "BTCUSDT" "BUY" 1 100
    "DAY" (by decide) (by decide) (by decide) (by decide) (by decide)

/-- C6: place_stop_limit_order applies one combined positivity check: with
a known symbol and a BUY or SELL side, whenever quantity, stop price or
limit price is not positive the call raises the single combined
invalid-quantity ValueError, the same error whichever of the three fields
fails, and only the symbol lookup request is issued. -/
theorem c6_stop_limit_combined_positivity (env : Env) (symbol side : String)
    (quantity stop_price limit_price : Rat) (time_in_force : String)
    (hs : (validate_symbol env (upper symbol)).2 = true)
    (hside : upper side ∈ (["BUY", "SELL"] : List String))
    (h : quantity ≤ 0 ∨ stop_price ≤ 0 ∨ limit_price ≤ 0) :
    (place_stop_limit_order env symbol side quantity stop_price limit_price
        time_in_force).2 =
      Except.error "Quantity, stop_price, and limit_price must be positive" ∧
    (place_stop_limit_order env symbol side quantity stop_price limit_price
        time_in_force).1 = [NetCall.exchangeInfo] := by
  constructor <;>
    simp [place_stop_limit_order, hs, hside, h, validate_symbol_trace]

/-- C6 witness: the concrete call of the specification, BTCUSDT BUY with
quantity 1, stop price 100 and limit price 0, is rejected with the combined
positivity message, and only the symbol lookup request is issued. -/
theorem c6_stop_limit_combined_positivity_witness :
    (place_stop_limit_order ⟨some ["BTCUSDT"]⟩ "BTCUSDT" "BUY" 1 100 0
        "GTC").2 =
      Except.error "Quantity, stop_price, and limit_price must be positive" ∧
    (place_stop_limit_order ⟨some ["BTCUSDT"]⟩ "BTCUSDT" "BUY" 1 100 0
        "GTC").1 = [NetCall.exchangeInfo] :=
  c6_stop_limit_combined_positivity ⟨some ["BTCUSDT"]⟩ "BTCUSDT" "BUY" 1 100
    0 "GTC" (by decide) (by decide) (by decide)

end TradingBot

namespace TradingBot

/-- C1: in every order-build operation the validation checks run in the
fixed order symbol membership, then side, then numeric positivity, then
time in force (the latter only for limit orders), and the first failing
check determines the raised error. In particular, whenever the symbol check
fails, every operation raises the invalid-symbol error regardless of all
other arguments; the side error presupposes the symbol check passed; the
numeric errors presuppose symbol and side passed; and the time-in-force
error presupposes symbol, side and the numeric check passed. -/
theorem c1_validation_check_order (env : Env) (symbol side : String)
    (quantity price stop_price limit_price : Rat) (time_in_force : String) :
    ((validate_symbol env (upper symbol)).2 = false →
      (place_market_order env symbol side quantity).2 =
          Except.error ("Invalid symbol: " ++ upper symbol) ∧
      (place_limit_order env symbol side quantity price time_in_force).2 =
          Except.error ("Invalid symbol: " ++ upper symbol) ∧
      (place_stop_limit_order env symbol side quantity stop_price limit_price
          time_in_force).2 =
          Except.error ("Invalid symbol: " ++ upper symbol)) ∧
    ((validate_symbol env (upper symbol)).2 = true →
      upper side ∉ (["BUY", "SELL"] : List String) →
      (place_market_order env symbol side quantity).2 =
          Except.error "Side must be \x27BUY\x27 or \x27SELL\x27" ∧
      (place_limit_order env symbol side quantity price time_in_force).2 =
          Except.error "Side must be \x27BUY\x27 or \x27SELL\x27" ∧
      (place_stop_limit_order env symbol side quantity stop_price limit_price
          time_in_force).2 =
          Except.error "Side must be \x27BUY\x27 or \x27SELL\x27") ∧
    ((validate_symbol env (upper symbol)).2 = true →
      upper side ∈ (["BUY", "SELL"] : List String) →
      (quantity ≤ 0 →
        (place_market_order env symbol side quantity).2 =
          Except.error "Quantity must be positive") ∧
      (quantity ≤ 0 ∨ price ≤ 0 →
        (place_limit_order env symbol side quantity price time_in_force).2 =
          Except.error "Quantity and price must be positive") ∧
      (quantity ≤ 0 ∨ stop_price ≤ 0 ∨ limit_price ≤ 0 →
        (place_stop_limit_order env symbol side quantity stop_price
            limit_price time_in_force).2 =
          Except.error
            "Quantity, stop_price, and limit_price must be positive")) ∧
    ((validate_symbol env (upper symbol)).2 = true →
      upper side ∈ (["BUY", "SELL"] : List String) →
      ¬(quantity ≤ 0 ∨ price ≤ 0) →
      time_in_force ∉ (["GTC", "IOC", "FOK"] : List String) →
      (place_limit_order env symbol side quantity price time_in_force).2 =
        Except.error
          "time_in_force must be \x27GTC\x27, \x27IOC\x27, or \x27FOK\x27") := by
  refine ⟨fun h0 => ⟨?_, ?_, ?_⟩, fun hs hside => ⟨?_, ?_, ?_⟩,
    fun hs hside => ⟨fun hq => ?_, fun hqp => ?_, fun hqsl => ?_⟩,
    fun hs hside hnum htif => ?_⟩
  · simp [place_market_order, h0]
  · simp [place_limit_order, h0]
  · simp [place_stop_limit_order, h0]
  · simp [place_market_order, hs, hside]
  · simp [place_limit_order, hs, hside]
  · simp [place_stop_limit_order, hs, hside]
  · simp [place_market_order, hs, hside, hq]
  · simp [place_limit_order, hs, hside, hqp]
  · simp [place_stop_limit_order, hs, hside, hqsl]
  · simp [place_limit_order, hs, hside, hnum, htif]

/-- C1 witness: with the symbol list reporting only BTCUSDT, the unknown
symbol FOO is rejected as invalid symbol whatever the other arguments, the
side HOLD is rejected once the symbol passes, quantity 0 triggers the
combined stop-limit positivity error once symbol and side pass, and the
time in force DAY triggers the time-in-force error once all earlier limit
checks pass. -/
theorem c1_validation_check_order_witness :
    (place_market_order ⟨some ["BTCUSDT"]⟩ "FOO" "BUY" 1).2 =
        Except.error ("Invalid symbol: " ++ upper "FOO") ∧
    (place_limit_order ⟨some ["BTCUSDT"]⟩ "btcusdt" "HOLD" 1 100 "GTC").2 =
        Except.error "Side must be \x27BUY\x27 or \x27SELL\x27" ∧
    (place_stop_limit_order ⟨some ["BTCUSDT"]⟩ "btcusdt" "buy" 0 100 99
        "GTC").2 =
        Except.error "Quantity, stop_price, and limit_price must be positive" ∧
    (place_limit_order ⟨some ["BTCUSDT"]⟩ "btcusdt" "buy" 1 100 "DAY").2 =
        Except.error
          "time_in_force must be \x27GTC\x27, \x27IOC\x27, or \x27FOK\x27" :=
  ⟨((c1_validation_check_order ⟨some ["BTCUSDT"]⟩ "FOO" "BUY" 1 100 100 99
        "GTC").1 (by decide)).1,
   ((c1_validation_check_order ⟨some ["BTCUSDT"]⟩ "btcusdt" "HOLD" 1 100 100
        99 "GTC").2.1 (by decide) (by decide)).2.1,
   ((c1_validation_check_order ⟨some ["BTCUSDT"]⟩ "btcusdt" "buy" 0 100 100
        99 "GTC").2.2.1 (by decide) (by decide)).2.2 (by decide),
   (c1_validation_check_order ⟨some ["BTCUSDT"]⟩ "btcusdt" "buy" 1 100 100
        99 "DAY").2.2.2 (by decide) (by decide) (by decide) (by decide)⟩

end TradingBot

namespace TradingBot

/-- C8 counterexample: for an exchange-reported asset with the negative
wallet balance -1 the aggregation drops the entry, whereas removing exactly
the zero-balance assets, as the claim states, would keep it; the two
results differ at this concrete input. -/
theorem c8_zero_filter_counterexample :
    (get_account_balance ⟨0, 0, [⟨"USDT", -1, 0⟩]⟩).assets ≠
      spec_nonzero_assets [⟨"USDT", -1, 0⟩] := by decide

/-- C8 as amended: get_account_balance copies both totals unchanged and
keeps exactly the asset entries whose wallet balance is strictly positive
(dropping zero and negative balances alike), preserving the
exchange-reported order, each kept entry retaining its asset, walletBalance
and availableBalance fields. -/
theorem c8_positive_balance_filter (account : Account) :
    (get_account_balance account).totalWalletBalance =
      account.totalWalletBalance ∧
    (get_account_balance account).availableBalance =
      account.availableBalance ∧
    (get_account_balance account).assets =
      account.assets.filter (fun a => decide (0 < a.walletBalance)) ∧
    List.Sublist (get_account_balance account).assets account.assets ∧
    ∀ a : AssetEntry, a ∈ (get_account_balance account).assets ↔
      a ∈ account.assets ∧ 0 < a.walletBalance := by
  refine ⟨rfl, rfl, rfl, List.filter_sublist _, fun a => ?_⟩
  simp [get_account_balance, List.mem_filter]

/-- C8 witness: on a concrete account the zero-balance BNB entry is
dropped while the positive USDT entry is kept, by the amended
characterization. -/
theorem c8_positive_balance_filter_witness :
    ((⟨"BNB", 0, 0⟩ : AssetEntry) ∈
        (get_account_balance
          ⟨10, 5, [⟨"USDT", 3, 2⟩, ⟨"BNB", 0, 0⟩]⟩).assets ↔
      (⟨"BNB", 0, 0⟩ : AssetEntry) ∈
          [(⟨"USDT", 3, 2⟩ : AssetEntry), ⟨"BNB", 0, 0⟩] ∧ (0 : Rat) < 0) ∧
    ((⟨"USDT", 3, 2⟩ : AssetEntry) ∈
        (get_account_balance
          ⟨10, 5, [⟨"USDT", 3, 2⟩, ⟨"BNB", 0, 0⟩]⟩).assets ↔
      (⟨"USDT", 3, 2⟩ : AssetEntry) ∈
          [(⟨"USDT", 3, 2⟩ : AssetEntry), ⟨"BNB", 0, 0⟩] ∧ (0 : Rat) < 3) :=
  ⟨(c8_positive_balance_filter
      ⟨10, 5, [⟨"USDT", 3, 2⟩, ⟨"BNB", 0, 0⟩]⟩).2.2.2.2 ⟨"BNB", 0, 0⟩,
   (c8_positive_balance_filter
      ⟨10, 5, [⟨"USDT", 3, 2⟩, ⟨"BNB", 0, 0⟩]⟩).2.2.2.2 ⟨"USDT", 3, 2⟩⟩

/-- C9 counterexample: with the exchange reporting only BTCUSDT, the call
place_market_order FOO BUY 1 raises the invalid-symbol validation error,
yet one network request, the exchange-information lookup issued by symbol
validation, had already been made; the claim that no request of any kind
reaches the exchange before a validation error is therefore false. -/
theorem c9_lookup_precedes_validation_error :
    (place_market_order ⟨some ["BTCUSDT"]⟩ "FOO" "BUY" 1).2 =
      Except.error "Invalid symbol: FOO" ∧
    (place_market_order ⟨some ["BTCUSDT"]⟩ "FOO" "BUY" 1).1 =
      [NetCall.exchangeInfo] := by decide

/-- C9 as amended: whenever an order-build operation raises a validation
error, the only network request that has been issued is the
exchange-information lookup of symbol validation; in particular no order
submission of any kind has been made. -/
theorem c9_no_submission_on_validation_error (env : Env)
    (symbol side : String) (quantity price stop_price limit_price : Rat)
    (time_in_force e : String) :
    ((place_market_order env symbol side quantity).2 = Except.error e →
      (place_market_order env symbol side quantity).1 =
        [NetCall.exchangeInfo]) ∧
    ((place_limit_order env symbol side quantity price time_in_force).2 =
        Except.error e →
      (place_limit_order env symbol side quantity price time_in_force).1 =
        [NetCall.exchangeInfo]) ∧
    ((place_stop_limit_order env symbol side quantity stop_price limit_price
          time_in_force).2 = Except.error e →
      (place_stop_limit_order env symbol side quantity stop_price limit_price
          time_in_force).1 = [NetCall.exchangeInfo]) := by
  refine ⟨fun h => ?_, fun h => ?_, fun h => ?_⟩
  · simp only [place_market_order] at h ⊢
    split_ifs at h ⊢ <;> simp_all [validate_symbol_trace]
  · simp only [place_limit_order] at h ⊢
    split_ifs at h ⊢ <;> simp_all [validate_symbol_trace]
  · simp only [place_stop_limit_order] at h ⊢
    split_ifs at h ⊢ <;> simp_all [validate_symbol_trace]

/-- C9 witness: at the rejected call place_market_order FOO BUY 1 the
request trace consists of the symbol lookup alone. -/
theorem c9_no_submission_on_validation_error_witness :
    (place_market_order ⟨some ["BTCUSDT"]⟩ "FOO" "BUY" 1).1 =
      [NetCall.exchangeInfo] :=
  (c9_no_submission_on_validation_error ⟨some ["BTCUSDT"]⟩ "FOO" "BUY" 1 100
      100 99 "GTC" "Invalid symbol: FOO").1 (by decide)

end TradingBot
